import Mathlib

/-!
Verification of the layer binding code generator of this repository
(`pyo3-opendal/src/codegen/layer.rs`, `types.rs`, `utils.rs`).

The generator reads one Rust source file, extracts the builder-method surface
of a `<Pascal>Layer` struct through `syn` syntax-tree introspection
(`parse_layer_def`), and deterministically renders a pyo3 wrapper class with a
generated constructor and docstring (`generate`).

The embedding below mirrors the source function by function.  `syn` values are
modelled exactly as far as the source inspects them (the extractor only ever
looks at the last path segment of a type, at the presence of a receiver, at the
literal value of `#[doc = "..."]` attributes, and so on).  Because the built-in
`String` operations of Lean are not kernel-reducible, string operations used by
the source (trim, starts_with, split, replace, lexicographic compare) are
re-implemented by structural recursion on `String.data`; they agree with the
Rust operations on the inputs involved (for ordering, UTF-8 byte order and
code-point order coincide).
-/

namespace OpendalCodegen

/-! ## String primitives (kernel-reducible counterparts of the Rust string API) -/

/-- Lexicographic `≤` on character lists by code point.  Rust's `str::cmp`
compares UTF-8 bytes; UTF-8 byte order coincides with code-point order, so this
is order-equivalent to the comparator of `sort_by` in layer.rs line 63. -/
def strLeChars : List Char → List Char → Bool
  | [], _ => true
  | _ :: _, [] => false
  | a :: as, b :: bs => if a = b then strLeChars as bs else decide (a.toNat < b.toNat)

/-- Lexicographic `≤` on strings, mirroring Rust `String::cmp`. -/
def strLe (a b : String) : Bool := strLeChars a.data b.data

/-- `str::trim` of Rust: drop leading and trailing whitespace. -/
def trimChars (s : List Char) : List Char :=
  ((s.dropWhile Char.isWhitespace).reverse.dropWhile Char.isWhitespace).reverse

/-- `str::trim` lifted to `String`. -/
def trimStr (s : String) : String := ⟨trimChars s.data⟩

/-- `str::starts_with` of Rust. -/
def startsWithStr (s p : String) : Bool := p.data.isPrefixOf s.data

/-- Drop the first `n` characters; used for `strip_prefix("with_")` (the
prefix `with_` has 5 characters, so stripping it is dropping 5). -/
def dropStr (s : String) (n : Nat) : String := ⟨s.data.drop n⟩

/-- Split on newline characters, as `str::lines` over the rendered docstring
block (used only to state properties about individual documentation lines). -/
def splitLinesAux : List Char → List Char → List (List Char)
  | [], acc => [acc.reverse]
  | c :: cs, acc =>
      if c = '\n' then acc.reverse :: splitLinesAux cs []
      else splitLinesAux cs (c :: acc)

/-- Split a string into its newline-separated lines. -/
def splitLines (s : String) : List String := (splitLinesAux s.data []).map (fun l => ⟨l⟩)

/-- `Vec::join(sep)` of Rust / `String.intercalate`. -/
def intercalateStr (sep : String) : List String → String
  | [] => ""
  | [x] => x
  | x :: xs => x ++ sep ++ intercalateStr sep xs

/-- `layer_name.replace('-', "_")` of layer.rs line 49: a single-character
pattern replace is a character map. -/
def replaceDash (s : String) : String :=
  ⟨s.data.map (fun c => if c = '-' then '_' else c)⟩

/-- `char::to_ascii_uppercase()` (layer.rs line 397): uppercase `a`-`z`
(code points 97-122), leave everything else unchanged. -/
def asciiUpperChar (c : Char) : Char :=
  if 97 ≤ c.toNat ∧ c.toNat ≤ 122 then Char.ofNat (c.toNat - 32) else c

/-- `layer_to_pascal` of layer.rs lines 389-405: treat `_` and `-` as word
breaks, uppercase the first letter of every word.  The source iterates the
UTF-8 bytes of the name and casts each byte to a char; iterating chars
coincides with that on ASCII input, and layer names are ASCII package-name
components. -/
def layer_to_pascal (layer : String) : String :=
  ⟨(layer.data.foldl
      (fun acc c =>
        if c = '_' ∨ c = '-' then (acc.1, true)
        else if acc.2 then (acc.1 ++ [asciiUpperChar c], false)
        else (acc.1 ++ [c], false))
      ([], true)).1⟩

/-! ## Syntax-tree model (the fragment of `syn` the extractor inspects) -/

/-- Receiver shapes of a Rust method (`self`, `mut self`, `&self`, `&mut self`).
`parse_layer_def` (layer.rs 237-243) only tests
`matches!(arg, syn::FnArg::Receiver(_))`, i.e. mere presence of a receiver, so
the shape is carried here but never inspected by the extractor. -/
inductive RecKind where
  | value
  | valueMut
  | refShared
  | refMut
deriving DecidableEq

/-- The pattern of a typed argument (`syn::Pat`) as far as inspected:
an identifier pattern, or anything else. -/
inductive Pat where
  | ident (name : String)
  | otherPat
deriving DecidableEq

/-- A `syn::Type` as far as the extractor inspects it: a path type together
with the identifier of its last segment, or any non-path type (reference,
tuple, slice, ...).  A `syn` path always has at least one segment. -/
inductive STy where
  | path (lastSeg : String)
  | otherTy
deriving DecidableEq

/-- `syn::ReturnType`: `Default` when no `->` is written, or a type. -/
inductive RetTy where
  | default
  | ty (t : STy)
deriving DecidableEq

/-- A method attribute as far as doc extraction inspects it: a
`#[doc = "..."]` name-value attribute carrying a string literal (what `///`
comments desugar to), or any other attribute (including non-name-value `doc`
attributes such as `#[doc(hidden)]`, which the `filter_map` of layer.rs
300-312 drops). -/
inductive Attr where
  | docStr (value : String)
  | otherAttr
deriving DecidableEq

/-- One `syn::FnArg::Typed` input: its pattern and its type. -/
structure TypedArg where
  pat : Pat
  ty : STy
deriving DecidableEq

/-- A method of an impl block, as far as `parse_layer_def` inspects it.  In
Rust the receiver, when present, is syntactically the first input; it is
carried separately here, and `args` are the `FnArg::Typed` inputs in order. -/
structure Method where
  vis_public : Bool
  attrs : List Attr
  name : String
  receiver : Option RecKind
  args : List TypedArg
  output : RetTy
deriving DecidableEq

/-- `MethodDef` of layer.rs 200-207. -/
structure MethodDef where
  name : String
  arg_name : String
  arg_type : String
  docs : List String
  is_toggle : Bool
deriving DecidableEq

/-- `LayerDef` of layer.rs 209-212. -/
structure LayerDef where
  methods : List MethodDef
deriving DecidableEq

/-- An item of an impl block: a function, or anything else. -/
inductive ImplItem where
  | fn (m : Method)
  | otherImplItem
deriving DecidableEq

/-- An impl block: its self type and its items. -/
structure ImplBlock where
  selfTy : STy
  items : List ImplItem
deriving DecidableEq

/-- A top-level item of the parsed file: an impl block, or anything else. -/
inductive Item where
  | implBlock (b : ImplBlock)
  | otherItem
deriving DecidableEq

/-! ## The extractor (`parse_layer_def`, layer.rs 214-368) -/

/-- Argument-name extraction (layer.rs 278-283): the identifier of an
identifier pattern, with fallback `"arg"`. -/
def patArgName : Pat → String
  | .ident n => n
  | .otherPat => "arg"

/-- Argument-type extraction (layer.rs 285-293): the last segment of a path
type, with fallback `"unknown"` for non-path types. -/
def tyArgType : STy → String
  | .path seg => seg
  | .otherTy => "unknown"

/-- Doc extraction (layer.rs 296-312 and 328-347): keep the string values of
`#[doc = "..."]` name-value attributes, trimmed.  Note the source trims but
does not drop blank lines here. -/
def extractDocs (attrs : List Attr) : List String :=
  attrs.filterMap (fun a =>
    match a with
    | .docStr s => some (trimStr s)
    | .otherAttr => none)

/-- The raw (untrimmed) doc attribute values, used to state properties of
`extractDocs`. -/
def docStrValues (attrs : List Attr) : List String :=
  attrs.filterMap (fun a =>
    match a with
    | .docStr s => some s
    | .otherAttr => none)

/-- Return-type admission check (layer.rs 246-259): a method with no return
type is skipped (`_ => continue`); a path return type is skipped unless its
last segment is `Self` or the struct name; a non-path return type falls
through the `if let Type::Path` and is admitted. -/
def retOk (structName : String) : RetTy → Bool
  | .default => false
  | .ty (.path seg) => seg == "Self" || seg == structName
  | .ty .otherTy => true

/-- Per-method classification of `parse_layer_def` (layer.rs 231-357):
non-public methods are skipped; a method without receiver is skipped; the
return type must pass `retOk`; exactly one typed argument yields a setter
descriptor; zero typed arguments yield a toggle descriptor when the name
starts with `with_` (the `argument_name` is the name with the 5-character
prefix dropped, the argument type is the implicit `bool`); anything else
yields nothing. -/
def classifyMethod (structName : String) (m : Method) : Option MethodDef :=
  if !m.vis_public then none
  else if m.receiver.isNone then none
  else if !(retOk structName m.output) then none
  else
    match m.args with
    | [arg] =>
        some ⟨m.name, patArgName arg.pat, tyArgType arg.ty, extractDocs m.attrs, false⟩
    | [] =>
        if startsWithStr m.name "with_" then
          some ⟨m.name, dropStr m.name 5, "bool", extractDocs m.attrs, true⟩
        else none
    | _ => none

/-- The methods contributed by one impl block (layer.rs 224-231): only impl
blocks whose self type is a path ending in the struct name are scanned. -/
def implBlockMethods (structName : String) (b : ImplBlock) : List MethodDef :=
  if b.selfTy = STy.path structName then
    b.items.filterMap (fun i =>
      match i with
      | .fn m => classifyMethod structName m
      | .otherImplItem => none)
  else []

/-- `parse_layer_def` (layer.rs 214-368) after the file has been read and
parsed: scan all items, collect the qualifying methods of every impl block of
`<Pascal(layer_name)>Layer`, in source order. -/
def parseLayerDef (layer_name : String) (items : List Item) : LayerDef :=
  let structName := layer_to_pascal layer_name ++ "Layer"
  ⟨(items.map (fun i =>
      match i with
      | .implBlock b => implBlockMethods structName b
      | .otherItem => [])).foldr (· ++ ·) []⟩

/-! ## The assembler (`generate`, layer.rs 27-198)

The file-location steps (layer.rs 28-46) are the driver part; the assembler
proper starts from the extracted `LayerDef`.  The inline type table of
layer.rs 71-91, the docstring assembly, and the `quote!` template of
layer.rs 159-195 are modelled below.  Proc-macro token-stream pretty-printing
is abstracted: the rendered text keeps every template item, in template order,
one item per line, with the interpolated identifiers spliced in. -/

/-- The mapped type of the inline table of `generate` (layer.rs 71-91):
the rendered Rust-side type, the rendered default of the `#[pyo3(signature)]`
entry, the boolean-ness flag, and the Python-side doc label — in the tuple
order of the source. -/
structure LayerTypeInfo where
  py_type : String
  default_val : String
  is_bool : Bool
  py_type_doc : String
deriving DecidableEq

/-- The integer type names of the shared or-pattern arm
(layer.rs line 74 and types.rs line 42). -/
def intTypeNames : List String :=
  ["usize", "u64", "i64", "u32", "u16", "isize", "i32", "i16", "i8", "u8"]

/-- The inline type mapping of `generate` (layer.rs 71-91).  `none` models the
`_` arm, which emits a diagnostic and `continue`s. -/
def layerTypeInfo (arg_type_str : String) : Option LayerTypeInfo :=
  if arg_type_str = "bool" then some ⟨"bool", "false", true, "bool"⟩
  else if arg_type_str = "String" then some ⟨"String", "None", false, "str"⟩
  else if arg_type_str ∈ intTypeNames then some ⟨arg_type_str, "None", false, "int"⟩
  else if arg_type_str = "f32" ∨ arg_type_str = "f64" then
    some ⟨arg_type_str, "None", false, "float"⟩
  else if arg_type_str = "Duration" then
    some ⟨"std::time::Duration", "None", false, "float"⟩
  else none

/-- The diagnostic emitted for a skipped method (layer.rs 85-88). -/
def skipDiag (md : MethodDef) : String :=
  "Skipping method " ++ md.name ++ " due to unsupported type " ++ md.arg_type

/-- The non-blank trimmed doc lines used by the docstring assembly
(layer.rs 99-105): trim each captured line, drop the ones that are empty. -/
def nonBlankTrimmedLines (docs : List String) : List String :=
  docs.filterMap (fun s => let t := trimStr s; if t = "" then none else some t)

/-- `doc_desc` of layer.rs 94-107: the fallback text when no doc lines were
captured, otherwise the non-blank trimmed lines joined with the continuation
indentation. -/
def doc_desc (md : MethodDef) : String :=
  if md.docs.isEmpty then "See `" ++ md.name ++ "`."
  else intercalateStr "\n    " (nonBlankTrimmedLines md.docs)

/-- One docstring parameter entry (layer.rs 109-112):
`format!("{} : Optional[{}]\n    {}", arg_name, py_type_doc, doc_desc)`. -/
def docParamLine (md : MethodDef) (py_type_doc : String) : String :=
  md.arg_name ++ " : Optional[" ++ py_type_doc ++ "]\n    " ++ doc_desc md

/-- One conditional invocation pushed onto `new_assignments`
(layer.rs 117-121, 125-129, 134-138). -/
inductive Assign where
  | toggleCall (arg_name method_name : String)
  | boolCall (arg_name method_name : String)
  | optCall (arg_name method_name : String)
deriving DecidableEq

/-- Rendering of one conditional invocation (the three `quote!` fragments of
layer.rs 117-138; `\x7b`/`\x7d` are the braces of the rendered Rust text). -/
def renderAssign : Assign → String
  | .toggleCall a mn => "if " ++ a ++ " \x7b layer = layer." ++ mn ++ "(); \x7d\n"
  | .boolCall a mn => "if " ++ a ++ " \x7b layer = layer." ++ mn ++ "(" ++ a ++ "); \x7d\n"
  | .optCall a mn =>
      "if let Some(v) = " ++ a ++ " \x7b layer = layer." ++ mn ++ "(v); \x7d\n"

/-- The four vectors accumulated by the method loop of `generate`
(layer.rs 56-59) together with the diagnostics of the skip arm. -/
structure ProcOut where
  new_args : List String
  signature_args : List String
  doc_params : List String
  assignments : List Assign
  diags : List String
deriving DecidableEq

/-- The empty accumulator state. -/
def emptyOut : ProcOut := ⟨[], [], [], [], []⟩

/-- Concatenation of accumulator states, componentwise in push order. -/
def appendOut (a b : ProcOut) : ProcOut :=
  ⟨a.new_args ++ b.new_args, a.signature_args ++ b.signature_args,
   a.doc_params ++ b.doc_params, a.assignments ++ b.assignments, a.diags ++ b.diags⟩

/-- One iteration of the method loop of `generate` (layer.rs 65-140): map the
argument type (skipping with a diagnostic when unsupported), push the doc
entry, then push the argument, the signature default and the conditional
invocation of the toggle / bool-setter / optional-setter shape. -/
def processMethod (md : MethodDef) : ProcOut :=
  match layerTypeInfo md.arg_type with
  | none => ⟨[], [], [], [], [skipDiag md]⟩
  | some ti =>
      let docLine := docParamLine md ti.py_type_doc
      if md.is_toggle then
        ⟨[md.arg_name ++ ": bool"], [md.arg_name ++ " = " ++ ti.default_val], [docLine],
         [Assign.toggleCall md.arg_name md.name], []⟩
      else if ti.is_bool then
        ⟨[md.arg_name ++ ": bool"], [md.arg_name ++ " = " ++ ti.default_val], [docLine],
         [Assign.boolCall md.arg_name md.name], []⟩
      else
        ⟨[md.arg_name ++ ": Option<" ++ ti.py_type ++ ">"],
         [md.arg_name ++ " = " ++ ti.default_val], [docLine],
         [Assign.optCall md.arg_name md.name], []⟩

/-- The whole method loop of `generate` (layer.rs 65-140), left to right. -/
def processMethods (ms : List MethodDef) : ProcOut :=
  (ms.map processMethod).foldr appendOut emptyOut

/-- Stable insertion of one descriptor into a list sorted by `arg_name`,
placing the inserted element before later equal elements. -/
def insertByArgName (md : MethodDef) : List MethodDef → List MethodDef
  | [] => [md]
  | x :: xs =>
      if strLe md.arg_name x.arg_name then md :: x :: xs
      else x :: insertByArgName md xs

/-- `methods.sort_by(|a, b| a.arg_name.cmp(&b.arg_name))` of layer.rs 62-63:
Rust's `sort_by` is a stable sort, and `insertByArgName` folded from the right
is stable insertion sort, so the two agree on every input. -/
def sortMethods (ms : List MethodDef) : List MethodDef :=
  ms.foldr insertByArgName []

/-- Docstring assembly (layer.rs 142-155): the parameter section is omitted
entirely when no parameter entry survived. -/
def doc_string_of (layer_pascal_lit : String) (doc_params : List String) : String :=
  if doc_params.isEmpty then
    "Create a new " ++ layer_pascal_lit ++ ".\n\nReturns\n-------\n" ++ layer_pascal_lit
  else
    "Create a new " ++ layer_pascal_lit ++ ".\n\nParameters\n----------\n" ++
      intercalateStr "\n" doc_params ++ "\n\nReturns\n-------\n" ++ layer_pascal_lit

/-- `doc_attributes` of layer.rs 157: one `#[doc = "..."]` attribute per
docstring line. -/
def renderDocAttrs (doc_string : String) : String :=
  intercalateStr "" ((splitLines doc_string).map
    (fun line => "#[doc = \"" ++ line ++ "\"]\n"))

/-- The fixed template text of layer.rs 159-187, from the module header up to
and including the opening of `fn new`, with the interpolated identifiers, the
doc attributes and the two comma-joined argument lists spliced in. -/
def generatedHead (layer_module layer_struct_ident layer_pascal_lit py_layer_ident : String)
    (doc_string : String) (signature_args new_args : List String) : String :=
  "//! This file is automatically generated by pyo3_opendal::codegen::generate_layer_stub\n" ++
  "#![allow(clippy::possible_missing_else)]\n" ++
  "use " ++ layer_module ++ "::" ++ layer_struct_ident ++ ";\n" ++
  "use crate::opyo3;\n" ++
  "use pyo3::prelude::*;\n" ++
  "use pyo3_stub_gen::derive::*;\n" ++
  "#[gen_stub_pyclass]\n" ++
  "#[pyclass(name = \"" ++ layer_pascal_lit ++ "\", extends=opyo3::PyLayer)]\n" ++
  "#[derive(Clone)]\n" ++
  "pub struct " ++ py_layer_ident ++ "(" ++ layer_struct_ident ++ ");\n" ++
  "impl opyo3::PythonLayer for " ++ py_layer_ident ++ " \x7b\n" ++
  "fn layer(&self, op: opyo3::ocore::Operator) -> opyo3::ocore::Operator \x7b op.layer(self.0.clone()) \x7d\n" ++
  "\x7d\n" ++
  "#[gen_stub_pymethods]\n" ++
  "#[pymethods]\n" ++
  "impl " ++ py_layer_ident ++ " \x7b\n" ++
  renderDocAttrs doc_string ++
  "#[gen_stub(override_return_type(type_repr = \"opendal.layers.Layer\", imports=(\"opendal\")))]\n" ++
  "#[new]\n" ++
  "#[pyo3(signature = (" ++ intercalateStr ", " signature_args ++ "))]\n" ++
  "#[allow(unused)]\n" ++
  "fn new(" ++ intercalateStr ", " new_args ++ ") -> PyResult<PyClassInitializer<Self>> \x7b\n"

/-- The first statement of the generated constructor body (layer.rs 188): the
wrapped layer value always starts from `default()`. -/
def defaultBaseLine (layer_struct_ident : String) : String :=
  "let mut layer = " ++ layer_struct_ident ++ "::default();\n"

/-- The fixed template text after the conditional invocations
(layer.rs 191-195). -/
def generatedTail : String :=
  "let class = PyClassInitializer::from(opyo3::PyLayer::new()?).add_subclass(Self(layer));\n" ++
  "Ok(class)\n" ++
  "\x7d\n" ++
  "\x7d\n"

/-- The result of the assembler: the rendered text, and the diagnostics the
source writes to stderr (layer.rs 85-88). -/
structure Generated where
  text : String
  diags : List String
deriving DecidableEq

/-- The assembler part of `generate` (layer.rs 48-198): derive the
identifiers, sort the extracted methods by argument name, run the method loop,
assemble the docstring, and render the template. -/
def generate (layer_name : String) (layer_def : LayerDef) : Generated :=
  let layer_pascal := layer_to_pascal layer_name
  let layer_snake := replaceDash layer_name
  let py_layer_ident := "Py" ++ layer_pascal ++ "Layer"
  let layer_struct_ident := layer_pascal ++ "Layer"
  let layer_module := "opendal_layer_" ++ layer_snake
  let layer_pascal_lit := layer_pascal ++ "Layer"
  let out := processMethods (sortMethods layer_def.methods)
  let doc_string := doc_string_of layer_pascal_lit out.doc_params
  ⟨generatedHead layer_module layer_struct_ident layer_pascal_lit py_layer_ident
      doc_string out.signature_args out.new_args ++
    (defaultBaseLine layer_struct_ident ++
      (intercalateStr "" (out.assignments.map renderAssign) ++ generatedTail)),
   out.diags⟩

/-- The documentation block embedded in the generated artifact for a given
layer: the `doc_string` local of `generate` (layer.rs 142-155). -/
def generatedDocString (layer_name : String) (layer_def : LayerDef) : String :=
  doc_string_of (layer_to_pascal layer_name ++ "Layer")
    (processMethods (sortMethods layer_def.methods)).doc_params

/-! ## The type mapping table of the service variant boundary
(`get_type_info_from_str`, types.rs 28-73) -/

/-- `TypeInfo` of types.rs 21-26, with the token streams rendered as text. -/
structure TypeInfo where
  rust_type : String
  py_type_doc : String
  default_val : String
  is_bool : Bool
deriving DecidableEq

/-- `get_type_info_from_str` of types.rs 28-73: a total function; the final
arm returns the "unsupported" sentinel with an empty label. -/
def get_type_info_from_str (type_str : String) : TypeInfo :=
  if type_str = "bool" then ⟨"bool", "bool", "false", true⟩
  else if type_str = "String" then ⟨"String", "str", "None", false⟩
  else if type_str ∈ intTypeNames then ⟨type_str, "int", "None", false⟩
  else if type_str = "f32" ∨ type_str = "f64" then ⟨type_str, "float", "None", false⟩
  else if type_str = "Duration" then
    ⟨"std::time::Duration", "datetime.timedelta", "None", false⟩
  else ⟨"", "", "", false⟩

/-- The type names the code actually supports (the non-fallback arms of
types.rs 28-73). -/
def supportedTypeNames : List String :=
  ["bool", "String"] ++ intTypeNames ++ ["f32", "f64", "Duration"]

/-- Modelled from the spec: the supported set as the claim words it —
"bool, String, the fixed/platform-width integers, f32/f64, Duration" — which
includes every fixed-width Rust integer type, in particular the 128-bit ones. -/
def claimedSupportedTypeNames : List String :=
  ["bool", "String",
   "u8", "u16", "u32", "u64", "u128", "usize",
   "i8", "i16", "i32", "i64", "i128", "isize",
   "f32", "f64", "Duration"]

/-! ## The dependency resolver (`find_dependency_path`, layer.rs 370-387 and
utils.rs 22-37) -/

/-- One resolved package as reported by the external build-metadata
collaborator (`cargo_metadata`): its name, its `source` (`None` for workspace
members, `Some` for externally sourced packages), and its manifest path,
modelled as a list of path components ending in the manifest file name. -/
structure Package where
  name : String
  source : Option String
  manifest_path : List String
deriving DecidableEq

/-- The scan of `find_dependency_path` (layer.rs 377-386): derive the
dependency name, find the first resolved package with that name whose
`source` is present, and return the parent directory of its manifest path
(`parent()` is `dropLast`; a manifest path always ends in `Cargo.toml`, so the
`unwrap` of the source never fails).  Resolving the metadata itself
(layer.rs 371-375) is the external collaborator and is given here as the
already-resolved package list. -/
def find_dependency_path (packages : List Package) (layer_name : String) :
    Except String (List String) :=
  let dep_name := "opendal-layer-" ++ layer_name
  match packages.find? (fun p => p.name == dep_name && p.source.isSome) with
  | some pkg => Except.ok pkg.manifest_path.dropLast
  | none => Except.error ("Could not find dependency package " ++ dep_name)

/-! ## Concrete inputs used by the scenario properties -/

/-- `pub fn with_max_times(mut self, max_times: usize) -> Self` of the
end-to-end `FooLayer` scenario. -/
def fooMaxTimesMethod : Method :=
  ⟨true, [], "with_max_times", some RecKind.value,
   [⟨Pat.ident "max_times", STy.path "usize"⟩], RetTy.ty (STy.path "Self")⟩

/-- `pub fn with_jitter(mut self) -> Self` of the `FooLayer` scenario. -/
def fooJitterMethod : Method :=
  ⟨true, [], "with_jitter", some RecKind.value, [], RetTy.ty (STy.path "Self")⟩

/-- The parsed items of the `FooLayer` scenario source file: one impl block
for `FooLayer` declaring `with_max_times` then `with_jitter`. -/
def fooItems : List Item :=
  [Item.implBlock ⟨STy.path "FooLayer",
    [ImplItem.fn fooMaxTimesMethod, ImplItem.fn fooJitterMethod]⟩]

/-- The newline-separated lines of the documentation block generated for the
`FooLayer` scenario. -/
def fooDocLines : List String :=
  splitLines (generatedDocString "foo" (parseLayerDef "foo" fooItems))

/-- `pub fn with_max_times(&self, max_times: usize) -> Self`: a builder
method that takes `self` by shared reference. -/
def refReceiverMethod : Method :=
  ⟨true, [], "with_max_times", some RecKind.refShared,
   [⟨Pat.ident "max_times", STy.path "usize"⟩], RetTy.ty (STy.path "Self")⟩

/-- A public one-argument method whose middle doc line is whitespace-only:
`/// First line`, `///   `, `/// Second line.`. -/
def blankDocMethod : Method :=
  ⟨true, [Attr.docStr " First line ", Attr.docStr "   ", Attr.docStr " Second line. "],
   "with_max_times", some RecKind.value,
   [⟨Pat.ident "max_times", STy.path "usize"⟩], RetTy.ty (STy.path "Self")⟩

/-- `pub fn with_max_times(mut self, max_times: usize) -> (FooLayer, u32)`:
a method whose return type is not a path type at all. -/
def tupleReturnMethod : Method :=
  ⟨true, [], "with_max_times", some RecKind.value,
   [⟨Pat.ident "max_times", STy.path "usize"⟩], RetTy.ty STy.otherTy⟩

/-- `pub fn with_retries(mut self, retries: usize) -> RetryPolicy`: a method
returning a path type other than the enclosing type. -/
def withRetriesMethod : Method :=
  ⟨true, [], "with_retries", some RecKind.value,
   [⟨Pat.ident "retries", STy.path "usize"⟩], RetTy.ty (STy.path "RetryPolicy")⟩

/-- `pub fn build(mut self) -> Self`: a qualifying zero-parameter method whose
name does not start with `with_`. -/
def buildMethod : Method :=
  ⟨true, [], "build", some RecKind.value, [], RetTy.ty (STy.path "Self")⟩

/-- `pub fn new(policy: RetryPolicy) -> Self`: a conventional factory shape —
a static function without receiver. -/
def newFactoryMethod : Method :=
  ⟨true, [], "new", none, [⟨Pat.ident "policy", STy.path "RetryPolicy"⟩],
   RetTy.ty (STy.path "Self")⟩

/-- Extracted descriptor of `with_jitter` (toggle). -/
def jitterDescriptor : MethodDef := ⟨"with_jitter", "jitter", "bool", [], true⟩

/-- Extracted descriptor of `with_max_times` (setter of a supported type). -/
def maxTimesDescriptor : MethodDef := ⟨"with_max_times", "max_times", "usize", [], false⟩

/-- Extracted descriptor of a setter of an unsupported type. -/
def policyDescriptor : MethodDef := ⟨"with_policy", "policy", "RetryPolicy", [], false⟩

/-- A workspace-local resolved package (`source` absent) carrying the derived
dependency name. -/
def localRetryPackage : Package :=
  ⟨"opendal-layer-retry", none, ["workspace", "layers", "retry", "Cargo.toml"]⟩

/-! ## Helper lemmas -/

/-- The docs field of any extracted descriptor is exactly the extracted doc
attribute list of its source method. -/
theorem classifyMethod_docs (structName : String) (m : Method) (d : MethodDef)
    (h : classifyMethod structName m = some d) : d.docs = extractDocs m.attrs := by
  unfold classifyMethod at h
  split at h
  · exact absurd h (by simp)
  split at h
  · exact absurd h (by simp)
  split at h
  · exact absurd h (by simp)
  split at h
  · cases h
    rfl
  · split at h
    · cases h
      rfl
    · exact absurd h (by simp)
  · exact absurd h (by simp)

/-- Doc extraction is trimming of the raw doc attribute values. -/
theorem extractDocs_eq_map_trim (attrs : List Attr) :
    extractDocs attrs = (docStrValues attrs).map trimStr := by
  induction attrs with
  | nil => rfl
  | cons a t ih => cases a <;> simp [extractDocs, docStrValues] at ih ⊢ <;> exact ih

/-- Prepending the empty accumulator state is the identity. -/
theorem appendOut_emptyOut_left (b : ProcOut) : appendOut emptyOut b = b := by
  cases b
  simp [appendOut, emptyOut]

/-- Unfolding of the method loop on a cons cell. -/
theorem processMethods_cons (md : MethodDef) (ms : List MethodDef) :
    processMethods (md :: ms) = appendOut (processMethod md) (processMethods ms) := rfl

/-- Accumulator concatenation is associative. -/
theorem appendOut_assoc (a b c : ProcOut) :
    appendOut (appendOut a b) c = appendOut a (appendOut b c) := by
  cases a
  cases b
  cases c
  simp [appendOut]

/-- The method loop distributes over list concatenation. -/
theorem processMethods_append (xs ys : List MethodDef) :
    processMethods (xs ++ ys) = appendOut (processMethods xs) (processMethods ys) := by
  induction xs with
  | nil => simpa [processMethods, emptyOut] using (appendOut_emptyOut_left (processMethods ys)).symm
  | cons x t ih => simp [List.cons_append, processMethods_cons, ih, appendOut_assoc]

/-- A string followed by anything starts with that string. -/
theorem startsWithStr_append_self (p t : String) : startsWithStr (p ++ t) p = true := by
  rw [startsWithStr, String.data_append, List.isPrefixOf_iff_prefix]
  exact List.prefix_append p.data t.data

/-- A concatenation starts with any prefix of its first part. -/
theorem startsWithStr_append_of_prefix (p t q : String) (h : q.data <+: p.data) :
    startsWithStr (p ++ t) q = true := by
  rw [startsWithStr, String.data_append, List.isPrefixOf_iff_prefix]
  exact h.trans (List.prefix_append p.data t.data)

/-- Every conditional invocation produced by one loop iteration is one of the
three conditional shapes for that very descriptor, and only a descriptor of a
supported type produces one. -/
theorem processMethod_assignments (md : MethodDef) (a : Assign)
    (h : a ∈ (processMethod md).assignments) :
    (layerTypeInfo md.arg_type).isSome = true ∧
      (a = Assign.toggleCall md.arg_name md.name ∨
       a = Assign.boolCall md.arg_name md.name ∨
       a = Assign.optCall md.arg_name md.name) := by
  unfold processMethod at h
  cases hti : layerTypeInfo md.arg_type with
  | none =>
      rw [hti] at h
      simp at h
  | some ti =>
      rw [hti] at h
      refine ⟨by simp [hti], ?_⟩
      simp only [] at h
      split at h
      · exact Or.inl (List.mem_singleton.mp h)
      · split at h
        · exact Or.inr (Or.inl (List.mem_singleton.mp h))
        · exact Or.inr (Or.inr (List.mem_singleton.mp h))

/-! ## The claims -/

/-- C1 counterexample: in the `FooLayer` end-to-end scenario the generated
documentation block contains no line `max_times : int, optional` and no line
`jitter : bool`: the code renders every parameter label as `Optional[...]`
(layer.rs 109-112), for toggles included. -/
theorem c1_counterexample :
    (fooDocLines.contains "max_times : int, optional") = false ∧
    (fooDocLines.contains "jitter : bool") = false := by decide

/-- C1 (amended): in the `FooLayer` scenario the documentation block contains
the parameter line `jitter : Optional[bool]` and the parameter line
`max_times : Optional[int]`, and the `jitter` line appears before the
`max_times` line (non-factory descriptors sorted by argument name, ascending,
lexicographic). -/
theorem c1_sorted_doc_lines :
    fooDocLines.contains "jitter : Optional[bool]" = true ∧
    fooDocLines.contains "max_times : Optional[int]" = true ∧
    fooDocLines.indexOf "jitter : Optional[bool]" <
      fooDocLines.indexOf "max_times : Optional[int]" := by decide

/-- C2: the assembler is deterministic — for the same extracted method list
(and the fixed built-in type mapping), two invocations of `generate` render
byte-identical text. -/
theorem c2_generate_deterministic (layer_name : String) (d₁ d₂ : LayerDef)
    (h : d₁ = d₂) :
    (generate layer_name d₁).text = (generate layer_name d₂).text := by
  rw [h]

/-- C2 witness: the two-run equality at the concrete `FooLayer` scenario. -/
theorem c2_witness :
    (generate "foo" (parseLayerDef "foo" fooItems)).text =
      (generate "foo" (parseLayerDef "foo" fooItems)).text :=
  c2_generate_deterministic "foo" _ _ rfl

/-- C3 counterexample: a public builder method taking `self` by shared
reference still yields a descriptor — the extractor only tests
`matches!(arg, FnArg::Receiver(_))`, which is satisfied by `&self` too
(layer.rs 237-243). -/
theorem c3_counterexample :
    classifyMethod "FooLayer" refReceiverMethod =
      some ⟨"with_max_times", "max_times", "usize", [], false⟩ := by decide

/-- C3 (amended): the extractor only requires the presence of a receiver:
a method without any receiver yields no descriptor, and the receiver shape
(by value or by reference, mutable or not) never changes the result. -/
theorem c3_receiver_presence_only :
    (∀ (structName : String) (m : Method), m.receiver = none →
      classifyMethod structName m = none) ∧
    (∀ (structName : String) (m : Method) (k k' : RecKind),
      classifyMethod structName { m with receiver := some k } =
        classifyMethod structName { m with receiver := some k' }) := by
  constructor
  · intro structName m h
    cases hv : m.vis_public <;> simp [classifyMethod, h, hv]
  · intro structName m k k'
    simp [classifyMethod]

/-- C3 witness: the amended statement at the concrete `&self` method. -/
theorem c3_witness :
    classifyMethod "FooLayer" { refReceiverMethod with receiver := none } = none ∧
    classifyMethod "FooLayer" { refReceiverMethod with receiver := some RecKind.refShared } =
      classifyMethod "FooLayer" { refReceiverMethod with receiver := some RecKind.value } :=
  ⟨c3_receiver_presence_only.1 "FooLayer" _ rfl,
   c3_receiver_presence_only.2 "FooLayer" refReceiverMethod RecKind.refShared RecKind.value⟩

/-- C4 counterexample: a method preceded by `/// First line`, `///   ` (a
whitespace-only doc line) and `/// Second line.` is extracted with
`docs = ["First line", "", "Second line."]` — the blank line survives
extraction (layer.rs 296-312 only trims), so the descriptor's docs sequence
does contain a blank line. -/
theorem c4_counterexample :
    classifyMethod "FooLayer" blankDocMethod =
      some ⟨"with_max_times", "max_times", "usize",
        ["First line", "", "Second line."], false⟩ ∧
    (["First line", "", "Second line."].contains "") = true := by decide

/-- C4 (amended): extraction captures the doc lines trimmed of
leading/trailing whitespace but retains blank lines; the blank lines are
dropped later, during assembly (layer.rs 99-105), whose filtered line list
never contains a blank line. -/
theorem c4_docs_trimmed_blanks_kept :
    (∀ (structName : String) (m : Method) (d : MethodDef),
      classifyMethod structName m = some d →
        d.docs = (docStrValues m.attrs).map trimStr) ∧
    (∀ md : MethodDef, "" ∉ nonBlankTrimmedLines md.docs) := by
  constructor
  · intro structName m d h
    rw [classifyMethod_docs structName m d h, extractDocs_eq_map_trim]
  · intro md hmem
    simp only [nonBlankTrimmedLines, List.mem_filterMap] at hmem
    obtain ⟨s, _, hs⟩ := hmem
    by_cases ht : trimStr s = ""
    · simp [ht] at hs
    · rw [if_neg ht] at hs
      exact ht (Option.some_inj.mp hs)

/-- C4 witness: the amended statement at the concrete method with the
whitespace-only middle doc line. -/
theorem c4_witness :
    (⟨"with_max_times", "max_times", "usize",
        ["First line", "", "Second line."], false⟩ : MethodDef).docs =
      (docStrValues blankDocMethod.attrs).map trimStr ∧
    "" ∉ nonBlankTrimmedLines
      (⟨"with_max_times", "max_times", "usize",
        ["First line", "", "Second line."], false⟩ : MethodDef).docs :=
  ⟨c4_docs_trimmed_blanks_kept.1 "FooLayer" blankDocMethod _ (by decide),
   c4_docs_trimmed_blanks_kept.2 _⟩

/-- C5 counterexample: a public builder method whose declared return type is
not a path type at all (for instance a tuple `-> (FooLayer, u32)`) does not
textually resolve to `Self` or the enclosing type, yet still yields a
descriptor: the return check of layer.rs 246-259 only rejects path return
types with a foreign last segment, and non-path types fall through the
`if let Type::Path`. -/
theorem c5_counterexample :
    classifyMethod "FooLayer" tupleReturnMethod =
      some ⟨"with_max_times", "max_times", "usize", [], false⟩ := by decide

/-- C5 (amended): the return-type exclusion holds for path return types —
a method whose return type is a path whose last segment is neither `Self` nor
the enclosing type's name, or which has no return type, yields no descriptor
(in particular `with_retries` returning `RetryPolicy` is excluded); a
non-path return type is not excluded by the check. -/
theorem c5_path_return_filter :
    (∀ (structName seg : String) (m : Method),
      m.output = RetTy.ty (STy.path seg) → seg ≠ "Self" → seg ≠ structName →
      classifyMethod structName m = none) ∧
    (∀ (structName : String) (m : Method), m.output = RetTy.default →
      classifyMethod structName m = none) ∧
    classifyMethod "FooLayer" withRetriesMethod = none := by
  refine ⟨?_, ?_, by decide⟩
  · intro structName seg m h h1 h2
    have hro : retOk structName m.output = false := by
      simp [retOk, h, h1, h2]
    cases hv : m.vis_public <;> cases hr : m.receiver <;>
      simp [classifyMethod, hv, hr, hro]
  · intro structName m h
    cases hv : m.vis_public <;> cases hr : m.receiver <;>
      simp [classifyMethod, hv, hr, retOk, h]

/-- C5 witness: the amended statement at `with_retries -> RetryPolicy` and at
a method without return type. -/
theorem c5_witness :
    classifyMethod "FooLayer" withRetriesMethod = none ∧
    classifyMethod "FooLayer" { withRetriesMethod with output := RetTy.default } = none :=
  ⟨c5_path_return_filter.1 "FooLayer" "RetryPolicy" withRetriesMethod rfl
      (by decide) (by decide),
   c5_path_return_filter.2.1 "FooLayer" _ rfl⟩

/-- C6: a qualifying zero-parameter public method (receiver present, return
type admitted) whose name starts with `with_` is classified as a toggle whose
`argument_name` is the name with the prefix stripped and whose argument type
is the implicit `bool`; a qualifying zero-parameter method not matching the
prefix yields no descriptor (layer.rs 321-356). -/
theorem c6_toggle_classification (structName : String) (m : Method)
    (hv : m.vis_public = true) (hr : m.receiver.isSome = true)
    (hret : retOk structName m.output = true) (hargs : m.args = []) :
    (startsWithStr m.name "with_" = true →
      classifyMethod structName m =
        some ⟨m.name, dropStr m.name 5, "bool", extractDocs m.attrs, true⟩) ∧
    (startsWithStr m.name "with_" = false →
      classifyMethod structName m = none) := by
  obtain ⟨k, hk⟩ := Option.isSome_iff_exists.mp hr
  constructor <;> intro hw <;> simp [classifyMethod, hv, hk, hret, hargs, hw]

/-- C6 witness: `with_jitter` yields the boolean toggle parameter `jitter`;
the zero-parameter `build` yields nothing. -/
theorem c6_witness :
    classifyMethod "FooLayer" fooJitterMethod =
      some ⟨"with_jitter", "jitter", "bool", [], true⟩ ∧
    classifyMethod "FooLayer" buildMethod = none :=
  ⟨(c6_toggle_classification "FooLayer" fooJitterMethod rfl rfl (by decide) rfl).1
      (by decide),
   (c6_toggle_classification "FooLayer" buildMethod rfl rfl (by decide) rfl).2
      (by decide)⟩

/-- C7: a setter whose recorded argument type has no entry in the type table
does not make generation fail: the loop contributes no constructor argument,
no signature entry, no doc entry and no invocation for it, and instead emits
the diagnostic naming the method and its type, while every other method's
contribution is exactly what it would have been without the unsupported one
(layer.rs 70-91). -/
theorem c7_unsupported_skip (xs ys : List MethodDef) (md : MethodDef)
    (h : layerTypeInfo md.arg_type = none) :
    (processMethods (xs ++ md :: ys)).new_args =
      (processMethods (xs ++ ys)).new_args ∧
    (processMethods (xs ++ md :: ys)).signature_args =
      (processMethods (xs ++ ys)).signature_args ∧
    (processMethods (xs ++ md :: ys)).doc_params =
      (processMethods (xs ++ ys)).doc_params ∧
    (processMethods (xs ++ md :: ys)).assignments =
      (processMethods (xs ++ ys)).assignments ∧
    skipDiag md ∈ (processMethods (xs ++ md :: ys)).diags := by
  have hm : processMethod md = ⟨[], [], [], [], [skipDiag md]⟩ := by
    simp [processMethod, h]
  rw [processMethods_append, processMethods_append, processMethods_cons, hm]
  cases processMethods xs
  cases processMethods ys
  simp [appendOut]

/-- C7 witness: the skip behaviour at a concrete descriptor list — `jitter`
and `max_times` around an unsupported `RetryPolicy` setter. -/
theorem c7_witness :
    (processMethods ([jitterDescriptor] ++ policyDescriptor :: [maxTimesDescriptor])).new_args =
      (processMethods ([jitterDescriptor] ++ [maxTimesDescriptor])).new_args ∧
    (processMethods ([jitterDescriptor] ++ policyDescriptor :: [maxTimesDescriptor])).signature_args =
      (processMethods ([jitterDescriptor] ++ [maxTimesDescriptor])).signature_args ∧
    (processMethods ([jitterDescriptor] ++ policyDescriptor :: [maxTimesDescriptor])).doc_params =
      (processMethods ([jitterDescriptor] ++ [maxTimesDescriptor])).doc_params ∧
    (processMethods ([jitterDescriptor] ++ policyDescriptor :: [maxTimesDescriptor])).assignments =
      (processMethods ([jitterDescriptor] ++ [maxTimesDescriptor])).assignments ∧
    skipDiag policyDescriptor ∈
      (processMethods ([jitterDescriptor] ++ policyDescriptor :: [maxTimesDescriptor])).diags :=
  c7_unsupported_skip [jitterDescriptor] [maxTimesDescriptor] policyDescriptor (by decide)

/-- C8 counterexample: `u128` is a fixed-width integer type name, so it lies
inside the supported set as the claim words it, yet `get_type_info_from_str`
returns the unsupported sentinel (empty label) for it — the integer arm of
types.rs line 42 omits the 128-bit types. -/
theorem c8_counterexample :
    ("u128" ∈ claimedSupportedTypeNames) ∧
    (get_type_info_from_str "u128").py_type_doc = "" := by decide

/-- C8 (amended): the table is a total function; for every name in the set it
actually supports (bool, String, the 8/16/32/64-bit and platform-width
integers — not the 128-bit ones — f32/f64, Duration) it returns a non-empty
label, and for every name outside that set it returns the unsupported
sentinel's empty label. -/
theorem c8_label_characterization (s : String) :
    (s ∈ supportedTypeNames → (get_type_info_from_str s).py_type_doc ≠ "") ∧
    (s ∉ supportedTypeNames → (get_type_info_from_str s).py_type_doc = "") := by
  unfold get_type_info_from_str
  split_ifs with h1 h2 h3 h4 h5 <;>
    constructor <;> intro hmem <;>
    simp_all [supportedTypeNames, intTypeNames]

/-- C8 witness: the amended statement at a supported name (`Duration`) and at
an unsupported one (`RetryPolicy`). -/
theorem c8_witness :
    (get_type_info_from_str "Duration").py_type_doc ≠ "" ∧
    (get_type_info_from_str "RetryPolicy").py_type_doc = "" :=
  ⟨(c8_label_characterization "Duration").1 (by decide),
   (c8_label_characterization "RetryPolicy").2 (by decide)⟩

/-- C9: whenever the resolver succeeds, the returned directory is the parent
of the manifest path of a resolved package whose name equals the derived
external-package name and whose `source` is present (in particular a
workspace-local package, whose `source` is absent, is never returned); and
when no package satisfies both conditions it fails with the distinct
"Could not find dependency package" error (layer.rs 377-386, utils.rs 29-36). -/
theorem c9_find_dependency (packages : List Package) (layer_name : String) :
    (∀ path, find_dependency_path packages layer_name = Except.ok path →
      ∃ pkg, pkg ∈ packages ∧ pkg.name = "opendal-layer-" ++ layer_name ∧
        pkg.source.isSome = true ∧ path = pkg.manifest_path.dropLast) ∧
    ((∀ pkg ∈ packages,
        ¬(pkg.name = "opendal-layer-" ++ layer_name ∧ pkg.source.isSome = true)) →
      find_dependency_path packages layer_name =
        Except.error ("Could not find dependency package " ++
          ("opendal-layer-" ++ layer_name))) := by
  constructor
  · intro path hok
    simp only [find_dependency_path] at hok
    cases hfind : packages.find?
        (fun p => p.name == ("opendal-layer-" ++ layer_name) && p.source.isSome) with
    | none =>
        rw [hfind] at hok
        exact absurd hok (by simp)
    | some pkg =>
        rw [hfind] at hok
        have hmem := List.mem_of_find?_eq_some hfind
        have hpred := List.find?_some hfind
        simp only [Bool.and_eq_true, beq_iff_eq] at hpred
        exact ⟨pkg, hmem, hpred.1, hpred.2, (Except.ok.inj hok).symm⟩
  · intro hall
    simp only [find_dependency_path]
    have hnone : packages.find?
        (fun p => p.name == ("opendal-layer-" ++ layer_name) && p.source.isSome) = none := by
      rw [List.find?_eq_none]
      intro p hp
      have := hall p hp
      simp only [Bool.and_eq_true, beq_iff_eq]
      tauto
    rw [hnone]

/-- C9 witness: with only a workspace-local package of the matching name
resolved, the resolver fails with the distinct error. -/
theorem c9_witness :
    find_dependency_path [localRetryPackage] "retry" =
      Except.error ("Could not find dependency package " ++
        ("opendal-layer-" ++ "retry")) :=
  (c9_find_dependency [localRetryPackage] "retry").2 (by decide)

/-- C10: the generated constructor always starts from the wrapped layer
type's `default()` value and never invokes a factory method: a method without
receiver (such as a static `new`) never yields a descriptor; every emitted
invocation of the constructor body is one of the three conditional
setter/toggle shapes of an extracted descriptor (so each emitted line starts
with `if`); and the rendered text places the `default()` base line before the
conditional invocations (layer.rs 186-193, 236-243). -/
theorem c10_default_base :
    (∀ (structName : String) (m : Method), m.receiver = none →
      classifyMethod structName m = none) ∧
    (∀ (ms : List MethodDef) (a : Assign), a ∈ (processMethods ms).assignments →
      ∃ md, md ∈ ms ∧ (layerTypeInfo md.arg_type).isSome = true ∧
        (a = Assign.toggleCall md.arg_name md.name ∨
         a = Assign.boolCall md.arg_name md.name ∨
         a = Assign.optCall md.arg_name md.name)) ∧
    (∀ a : Assign, startsWithStr (renderAssign a) "if " = true) ∧
    (∀ (layer_name : String) (d : LayerDef), ∃ pre post,
      (generate layer_name d).text =
        pre ++ (defaultBaseLine (layer_to_pascal layer_name ++ "Layer") ++
          (intercalateStr ""
            (((processMethods (sortMethods d.methods)).assignments).map renderAssign) ++
            post))) := by
  refine ⟨?_, ?_, ?_, ?_⟩
  · intro structName m h
    cases hv : m.vis_public <;> simp [classifyMethod, h, hv]
  · intro ms a hmem
    induction ms with
    | nil => simp [processMethods, emptyOut] at hmem
    | cons x t ih =>
        rw [processMethods_cons] at hmem
        simp only [appendOut, List.mem_append] at hmem
        rcases hmem with hl | hr
        · obtain ⟨hsome, hshape⟩ := processMethod_assignments x a hl
          exact ⟨x, List.mem_cons_self x t, hsome, hshape⟩
        · obtain ⟨md, hmd, h2, h3⟩ := ih hr
          exact ⟨md, List.mem_cons_of_mem x hmd, h2, h3⟩
  · intro a
    cases a with
    | toggleCall x mn =>
        simp [renderAssign, String.append_assoc, startsWithStr_append_self]
    | boolCall x mn =>
        simp [renderAssign, String.append_assoc, startsWithStr_append_self]
    | optCall x mn =>
        simp only [renderAssign, String.append_assoc]
        exact startsWithStr_append_of_prefix "if let Some(v) = " _ "if " (by decide)
  · intro layer_name d
    exact ⟨_, _, rfl⟩

/-- C10 witness: a receiver-less `new` yields no descriptor. -/
theorem c10_witness :
    classifyMethod "FooLayer" newFactoryMethod = none :=
  c10_default_base.1 "FooLayer" newFactoryMethod rfl

end OpendalCodegen
